import Mathlib

/-!
Shallow embedding of `src/clients/python-client/client.py` (SurgeProtocol
python client).

The program is a sequential TCP client:

* `connect_to_server` loops: create a socket, `settimeout(5.0)`, `connect`;
  on `socket.error` print a failure notice, `time.sleep(5)` and retry;
  on success print a notice and return the socket.
* `listen_for_messages(sock)` loops: `data = sock.recv(1024).decode()`;
  empty data means the server closed (print notice, return); otherwise
  print `Received from server: {data.strip()}`; a `socket.error` prints a
  connection-error notice and returns.  A `UnicodeDecodeError` raised by
  `.decode()` is NOT a `socket.error` and escapes the `try`.
* `main` loops forever: connect, listen, `sock.close()`, print a
  reconnect notice.

The nondeterministic environment (operating system + server) is made
explicit: a connection phase is described by the list of error strings of
the failed attempts that precede the successful one, and a receive phase
by the list of results the successive `recv` calls deliver.  The program
denotes a trace of observable events (console prints, sleeps, socket
operations) plus a resulting state.  Machine-level byte strings are
`List Nat` with each entry a byte value; `decode()` is Python's strict
UTF-8 decoder, modelled in full below.
-/

/-- The codepoints Python's `str.strip()` removes (`Py_UNICODE_ISSPACE`). -/
def pyWhitespace : List Nat :=
  [0x09, 0x0A, 0x0B, 0x0C, 0x0D, 0x1C, 0x1D, 0x1E, 0x1F, 0x20,
   0x85, 0xA0, 0x1680,
   0x2000, 0x2001, 0x2002, 0x2003, 0x2004, 0x2005, 0x2006, 0x2007,
   0x2008, 0x2009, 0x200A, 0x2028, 0x2029, 0x202F, 0x205F, 0x3000]

/-- Whether a character is whitespace for Python's `str.strip()`. -/
def isPySpace (c : Char) : Bool := pyWhitespace.contains c.toNat

/-- Python's `str.strip()` with no argument: remove leading AND trailing
whitespace. -/
def pyStrip (s : String) : String :=
  ⟨((s.data.dropWhile isPySpace).reverse.dropWhile isPySpace).reverse⟩

/-- Modelled from the spec: the spec sentence "trailing whitespace/newline
stripped before display" describes a strip of the TRAILING end only.  This
definition follows those words, to be compared with the source's
`str.strip()` (`pyStrip`), which strips both ends. -/
def stripTrailing (s : String) : String :=
  ⟨(s.data.reverse.dropWhile isPySpace).reverse⟩

/-- Observable events of one run: console prints (kept structured, with
`Event.render` giving the exact console line the source's f-strings
produce), sleeps, and socket operations.  Sockets are named by the order
of their creation (`sockNew 0` is the first `socket.socket(...)` call).
`sockSend` is the transmit operation of the socket API; the client never
performs it, which is exactly what some theorems below establish. -/
inductive Event where
  | printAttempting (host : String) (port : Nat)
  | printConnFailed (err : String)
  | printConnected
  | printServerClosed
  | printReceived (data : String)
  | printConnErrorNotice (err : String)
  | printReconnecting
  | sleep (secs : Nat)
  | sockNew (id : Nat)
  | sockSetTimeout (id : Nat) (secs : Nat)
  | sockConnect (id : Nat) (host : String) (port : Nat)
  | sockRecv (id : Nat) (maxBytes : Nat)
  | sockSend (id : Nat) (bytes : List Nat)
  | sockClose (id : Nat)
  deriving DecidableEq, Repr

/-- The exact console line a print event writes, from the source's
f-strings; `none` for non-print events. -/
def Event.render : Event → Option String
  | .printAttempting host port =>
      some ("Attempting to connect to " ++ host ++ ":" ++ toString port ++ "...")
  | .printConnFailed err =>
      some ("Connection failed: " ++ err ++ ". Retrying in 5 seconds...")
  | .printConnected => some "Connected to the server."
  | .printServerClosed => some "Server closed the connection."
  | .printReceived data => some ("Received from server: " ++ pyStrip data)
  | .printConnErrorNotice err => some ("Connection error: " ++ err)
  | .printReconnecting => some "Connection lost. Reconnecting..."
  | _ => none

/-- Whether `b1` is a valid second byte of a UTF-8 sequence whose first
byte is the 3-byte leader `b` (excludes overlong forms and surrogates,
as Python's strict `bytes.decode()` does). -/
def utf8Cont2 (b b1 : Nat) : Bool :=
  if b = 0xE0 then 0xA0 ≤ b1 && b1 ≤ 0xBF
  else if b = 0xED then 0x80 ≤ b1 && b1 ≤ 0x9F
  else 0x80 ≤ b1 && b1 ≤ 0xBF

/-- Whether `b1` is a valid second byte of a UTF-8 sequence whose first
byte is the 4-byte leader `b` (excludes overlong forms and codepoints
above U+10FFFF). -/
def utf8Cont3 (b b1 : Nat) : Bool :=
  if b = 0xF0 then 0x90 ≤ b1 && b1 ≤ 0xBF
  else if b = 0xF4 then 0x80 ≤ b1 && b1 ≤ 0x8F
  else 0x80 ≤ b1 && b1 ≤ 0xBF

/-- Whether `b` is a UTF-8 continuation byte. -/
def utf8ContB (b : Nat) : Bool := 0x80 ≤ b && b ≤ 0xBF

/-- Decode one UTF-8 character: leader byte `b` followed by bytes `bs`;
`some` of the character and the remaining bytes, or `none` when the bytes
are not valid strict UTF-8 (truncated sequences, stray continuation
bytes, overlong forms, surrogates and values above U+10FFFF are all
rejected, as Python's strict `bytes.decode()` rejects them). -/
def utf8DecodeChar (b : Nat) (bs : List Nat) : Option (Char × List Nat) :=
  if b ≤ 0x7F then some (Char.ofNat b, bs)
  else if 0xC2 ≤ b && b ≤ 0xDF then
    match bs with
    | b1 :: rest =>
      if utf8ContB b1 then
        some (Char.ofNat ((b - 0xC0) * 0x40 + (b1 - 0x80)), rest)
      else none
    | [] => none
  else if 0xE0 ≤ b && b ≤ 0xEF then
    match bs with
    | b1 :: b2 :: rest =>
      if utf8Cont2 b b1 && utf8ContB b2 then
        some (Char.ofNat ((b - 0xE0) * 0x1000 + (b1 - 0x80) * 0x40 + (b2 - 0x80)),
          rest)
      else none
    | _ => none
  else if 0xF0 ≤ b && b ≤ 0xF4 then
    match bs with
    | b1 :: b2 :: b3 :: rest =>
      if utf8Cont3 b b1 && utf8ContB b2 && utf8ContB b3 then
        some (Char.ofNat ((b - 0xF0) * 0x40000 + (b1 - 0x80) * 0x1000
          + (b2 - 0x80) * 0x40 + (b3 - 0x80)), rest)
      else none
    | _ => none
  else none

/-- Recursion core of `utf8Decode`: decode character by character,
structurally on a fuel that bounds the number of characters still to
come.  `utf8Decode` supplies the length of the byte string as fuel, which
always suffices because each character consumes at least one byte
(`utf8DecodeAux_fuel` below shows the fuel value never matters). -/
def utf8DecodeAux : Nat → List Nat → Option (List Char)
  | _, [] => some []
  | 0, _ :: _ => none
  | fuel + 1, b :: bs =>
    match utf8DecodeChar b bs with
    | none => none
    | some (c, rest) => (utf8DecodeAux fuel rest).map (fun cs => c :: cs)

/-- Python's strict UTF-8 `bytes.decode()`: `some` list of characters, or
`none` when the byte string is not valid UTF-8 (a `UnicodeDecodeError`). -/
def utf8Decode (bs : List Nat) : Option (List Char) :=
  utf8DecodeAux bs.length bs

/-- One result delivered by a `sock.recv(1024)` call: either a byte
string (empty means the remote end closed), or a `socket.error`
(connection reset, timeout, ...) carrying its message. -/
inductive ReadEvent where
  | chunk (bytes : List Nat)
  | err (msg : String)
  deriving DecidableEq, Repr

/-- How one invocation of `listen_for_messages` ends:
`cleanClose` — returned after a zero-length read;
`connError` — returned from the `except socket.error` handler;
`decodeError bs` — `bytes.decode()` raised `UnicodeDecodeError` on `bs`,
which no handler in the program catches;
`running` — the supplied read results are exhausted with the loop still
blocked in `recv` (the session is still in its receive phase). -/
inductive RecvOutcome where
  | cleanClose
  | connError
  | decodeError (bytes : List Nat)
  | running
  deriving DecidableEq, Repr

/-- `listen_for_messages(sock)` of client.py, reading from socket `id`:
consumes successive `recv` results and produces the event trace plus the
outcome of the invocation. -/
def listen_for_messages (id : Nat) : List ReadEvent → List Event × RecvOutcome
  | [] => ([], .running)
  | .err e :: _ =>
      ([.sockRecv id 1024, .printConnErrorNotice e], .connError)
  | .chunk bs :: rest =>
    match utf8Decode bs with
    | none => ([.sockRecv id 1024], .decodeError bs)
    | some cs =>
      if cs.isEmpty then
        ([.sockRecv id 1024, .printServerClosed], .cleanClose)
      else
        let r := listen_for_messages id rest
        (.sockRecv id 1024 :: .printReceived ⟨cs⟩ :: r.1, r.2)

/-- `connect_to_server()` of client.py: given the error strings of the
failed attempts that precede the successful one, produce the event trace
and the id of the socket it returns.  `nextId` is the id the next
`socket.socket(...)` call will create. -/
def connect_to_server (host : String) (port : Nat) (nextId : Nat) :
    List String → List Event × Nat
  | [] =>
      ([.printAttempting host port, .sockNew nextId,
        .sockSetTimeout nextId 5, .sockConnect nextId host port,
        .printConnected], nextId)
  | e :: fails =>
    let r := connect_to_server host port (nextId + 1) fails
    ([.printAttempting host port, .sockNew nextId,
      .sockSetTimeout nextId 5, .sockConnect nextId host port,
      .printConnFailed e, .sleep 5] ++ r.1, r.2)

/-- The environment of one iteration of `main`'s loop: the failed connect
attempts before the successful one, and the results of the `recv` calls. -/
structure Session where
  connectFails : List String
  reads : List ReadEvent
  deriving DecidableEq, Repr

/-- Where the process stands after `main` has consumed the supplied
sessions: `looping` — back at the top of `while True` awaiting the next
connection; `blocked` — inside `listen_for_messages`, blocked on `recv`;
`crashed bs` — an uncaught `UnicodeDecodeError` on byte string `bs`
propagated out of `main` and terminated the process. -/
inductive ProcState where
  | looping
  | blocked
  | crashed (bytes : List Nat)
  deriving DecidableEq, Repr

/-- `main()` of client.py: run the given sessions in order.  Each
iteration connects (retrying), listens, and — when `listen_for_messages`
RETURNS — closes the socket and prints the reconnect notice.  When the
listener's `.decode()` raises, the exception propagates: no close, no
further iterations, the process dies. -/
def mainLoop (host : String) (port : Nat) (nextId : Nat) :
    List Session → List Event × ProcState
  | [] => ([], .looping)
  | s :: rest =>
    let c := connect_to_server host port nextId s.connectFails
    let r := listen_for_messages c.2 s.reads
    match r.2 with
    | .running => (c.1 ++ r.1, .blocked)
    | .decodeError bs => (c.1 ++ r.1, .crashed bs)
    | .cleanClose | .connError =>
      let m := mainLoop host port (c.2 + 1) rest
      (c.1 ++ r.1 ++ [.sockClose c.2, .printReconnecting] ++ m.1, m.2)

/-- `SERVER_HOST = os.getenv("SERVER_HOST", "localhost")`: the host the
client targets, given the optional environment value. -/
def SERVER_HOST (env : Option String) : String := env.getD "localhost"

/-- `SERVER_PORT = int(os.getenv("SERVER_PORT", 8080))`: the port the
client targets.  The `int(...)` conversion of a supplied string is
abstracted: the environment provides the already-parsed integer when the
variable is set. -/
def SERVER_PORT (env : Option Nat) : Nat := env.getD 8080

/-- The socket an event operates on, if any. -/
def Event.sockId : Event → Option Nat
  | .sockNew i => some i
  | .sockSetTimeout i _ => some i
  | .sockConnect i _ _ => some i
  | .sockRecv i _ => some i
  | .sockSend i _ => some i
  | .sockClose i => some i
  | _ => none

/-- Whether the event is a `sock.close()` call. -/
def Event.isClose : Event → Bool
  | .sockClose _ => true
  | _ => false

/-- Whether the event is a `sock.recv(...)` call. -/
def Event.isRecv : Event → Bool
  | .sockRecv _ _ => true
  | _ => false

/-- Whether the event is a transmit (`sock.send`-like) operation. -/
def Event.isSend : Event → Bool
  | .sockSend _ _ => true
  | _ => false

/-- Whether the event is a `sock.connect(...)` call. -/
def Event.isConnAttempt : Event → Bool
  | .sockConnect _ _ _ => true
  | _ => false

/-- Whether the event is a `socket.socket(...)` creation. -/
def Event.isNew : Event → Bool
  | .sockNew _ => true
  | _ => false

/-- Whether the event is a `sock.settimeout(...)` call. -/
def Event.isSetTimeout : Event → Bool
  | .sockSetTimeout _ _ => true
  | _ => false

/-- Whether the event is the failure notice of a failed connect attempt. -/
def Event.isFailNotice : Event → Bool
  | .printConnFailed _ => true
  | _ => false

/-- The duration of a `time.sleep(...)` event, if any. -/
def Event.sleepSecs : Event → Option Nat
  | .sleep t => some t
  | _ => none

/-- The id of the socket a `socket.socket(...)` event creates, if any. -/
def Event.newId : Event → Option Nat
  | .sockNew i => some i
  | _ => none

/-- The id of the socket a `sock.close()` event closes, if any. -/
def Event.closeId : Event → Option Nat
  | .sockClose i => some i
  | _ => none

/-- The (host, port) a `sock.connect(...)` event targets, if any. -/
def Event.connTarget : Event → Option (String × Nat)
  | .sockConnect _ host port => some (host, port)
  | _ => none

/-- The value a `sock.settimeout(...)` event installs, if any. -/
def Event.timeoutOf : Event → Option Nat
  | .sockSetTimeout _ t => some t
  | _ => none

/-- Tags the events that narrate the retry loop of `connect_to_server`:
`0` an attempt notice, `1` a failure notice, `2` the retry sleep, `3` the
success notice; `none` for socket operations. -/
def Event.retryTag : Event → Option Nat
  | .printAttempting _ _ => some 0
  | .printConnFailed _ => some 1
  | .sleep _ => some 2
  | .printConnected => some 3
  | _ => none

/-- Whether the receive invocation RETURNED (the `except socket.error`
design absorbs exactly these two outcomes; `decodeError` escapes and
`running` means it has not finished). -/
def RecvOutcome.isNormal : RecvOutcome → Bool
  | .cleanClose => true
  | .connError => true
  | _ => false

/-- Whether the receive invocation ended in an uncaught
`UnicodeDecodeError`. -/
def RecvOutcome.isDecodeErr : RecvOutcome → Bool
  | .decodeError _ => true
  | _ => false

/-- Whether the process state is a crash (an uncaught exception ended the
process). -/
def ProcState.isCrashed : ProcState → Bool
  | .crashed _ => true
  | _ => false

/-- A read result the receive loop consumes and moves past: a non-empty
chunk of valid UTF-8. -/
def ReadEvent.isGood : ReadEvent → Bool
  | .chunk bs => !bs.isEmpty && (utf8Decode bs).isSome
  | .err _ => false

/-- A read result whose payload, if it is a chunk, is valid UTF-8 (so
`.decode()` cannot raise on it). -/
def ReadEvent.decodes : ReadEvent → Bool
  | .chunk bs => (utf8Decode bs).isSome
  | .err _ => true

/-- The socket ids `main` closes on the given sessions: for each session
in turn, the socket of its successful connect attempt (the failed
attempts having consumed the earlier ids). -/
def sessionIds (nextId : Nat) : List Session → List Nat
  | [] => []
  | s :: rest =>
      (nextId + s.connectFails.length) ::
        sessionIds (nextId + s.connectFails.length + 1) rest

example : utf8Decode [104, 105] = some ['h', 'i'] := by decide
example : utf8Decode [0x80] = none := by decide
example : utf8Decode [0xC3, 0xA9] = some ['é'] := by decide
example : utf8Decode [0xED, 0xA0, 0x80] = none := by decide
example : pyStrip " hi\n" = "hi" := by decide
example : stripTrailing " hi\n" = " hi" := by decide

/-! Helper lemmas about `connect_to_server`. -/

theorem connect_snd (host : String) (port : Nat) (nextId : Nat)
    (fails : List String) :
    (connect_to_server host port nextId fails).2 = nextId + fails.length := by
  induction fails generalizing nextId with
  | nil => simp [connect_to_server]
  | cons e fs ih => simp [connect_to_server, ih]; omega

theorem connect_mem_shape (host : String) (port : Nat) (nextId : Nat)
    (fails : List String) :
    ∀ e ∈ (connect_to_server host port nextId fails).1,
      e = .printAttempting host port ∨ (∃ i, e = .sockNew i) ∨
      (∃ i, e = .sockSetTimeout i 5) ∨ (∃ i, e = .sockConnect i host port) ∨
      e = .printConnected ∨ (∃ s, e = .printConnFailed s) ∨ e = .sleep 5 := by
  induction fails generalizing nextId with
  | nil =>
    intro e he
    simp [connect_to_server] at he
    rcases he with h | h | h | h | h <;> subst h <;> simp
  | cons f fs ih =>
    intro e he
    simp [connect_to_server] at he
    rcases he with h | h | h | h | h | h | h
    · subst h; simp
    · subst h; simp
    · subst h; simp
    · subst h; simp
    · subst h; simp
    · subst h; simp
    · exact ih (nextId + 1) e h

theorem connect_countP_fail (host : String) (port : Nat) (nextId : Nat)
    (fails : List String) :
    (connect_to_server host port nextId fails).1.countP Event.isFailNotice
      = fails.length := by
  induction fails generalizing nextId with
  | nil => simp [connect_to_server, Event.isFailNotice]
  | cons f fs ih =>
    simp [connect_to_server, List.countP_cons, List.countP_append,
      Event.isFailNotice, ih]

theorem connect_filterMap_sleep (host : String) (port : Nat) (nextId : Nat)
    (fails : List String) :
    (connect_to_server host port nextId fails).1.filterMap Event.sleepSecs
      = List.replicate fails.length 5 := by
  induction fails generalizing nextId with
  | nil => simp [connect_to_server, Event.sleepSecs]
  | cons f fs ih =>
    simp [connect_to_server, List.filterMap_append, Event.sleepSecs, ih,
      List.replicate_succ]

theorem connect_filterMap_newId (host : String) (port : Nat) (nextId : Nat)
    (fails : List String) :
    (connect_to_server host port nextId fails).1.filterMap Event.newId
      = List.range' nextId (fails.length + 1) := by
  induction fails generalizing nextId with
  | nil => simp [connect_to_server, Event.newId, List.range']
  | cons f fs ih =>
    simp [connect_to_server, List.filterMap_append, Event.newId, ih,
      List.range']

theorem connect_filterMap_timeout (host : String) (port : Nat) (nextId : Nat)
    (fails : List String) :
    (connect_to_server host port nextId fails).1.filterMap Event.timeoutOf
      = List.replicate (fails.length + 1) 5 := by
  induction fails generalizing nextId with
  | nil => simp [connect_to_server, Event.timeoutOf]
  | cons f fs ih =>
    simp [connect_to_server, List.filterMap_append, Event.timeoutOf, ih,
      List.replicate_succ]

theorem connect_filterMap_connTarget (host : String) (port : Nat)
    (nextId : Nat) (fails : List String) :
    (connect_to_server host port nextId fails).1.filterMap Event.connTarget
      = List.replicate (fails.length + 1) (host, port) := by
  induction fails generalizing nextId with
  | nil => simp [connect_to_server, Event.connTarget]
  | cons f fs ih =>
    simp [connect_to_server, List.filterMap_append, Event.connTarget, ih,
      List.replicate_succ]

theorem connect_filterMap_retryTag (host : String) (port : Nat)
    (nextId : Nat) (fails : List String) :
    (connect_to_server host port nextId fails).1.filterMap Event.retryTag
      = (List.replicate fails.length [0, 1, 2]).flatten ++ [0, 3] := by
  induction fails generalizing nextId with
  | nil => simp [connect_to_server, Event.retryTag]
  | cons f fs ih =>
    simp [connect_to_server, List.filterMap_append, Event.retryTag, ih,
      List.replicate_succ]

theorem connect_getLast (host : String) (port : Nat) (nextId : Nat)
    (fails : List String) :
    (connect_to_server host port nextId fails).1.getLast?
      = some Event.printConnected := by
  induction fails generalizing nextId with
  | nil => simp [connect_to_server]
  | cons f fs ih =>
    have hne : (connect_to_server host port (nextId + 1) fs).1 ≠ [] := by
      intro hnil
      have := ih (nextId + 1)
      rw [hnil] at this
      simp at this
    simp only [connect_to_server]
    rw [List.getLast?_append_of_ne_nil _ hne]
    exact ih (nextId + 1)

theorem connect_mem_success (host : String) (port : Nat) (nextId : Nat)
    (fails : List String) :
    Event.sockConnect (nextId + fails.length) host port
      ∈ (connect_to_server host port nextId fails).1 := by
  induction fails generalizing nextId with
  | nil => simp [connect_to_server]
  | cons f fs ih =>
    simp only [connect_to_server, List.mem_append]
    right
    have := ih (nextId + 1)
    have harith : nextId + 1 + fs.length = nextId + (f :: fs).length := by
      simp; omega
    rwa [harith] at this

theorem connect_sockId_bounds (host : String) (port : Nat) (nextId : Nat)
    (fails : List String) :
    ∀ e ∈ (connect_to_server host port nextId fails).1,
      ∀ i, e.sockId = some i → nextId ≤ i ∧ i ≤ nextId + fails.length := by
  induction fails generalizing nextId with
  | nil =>
    intro e he i hi
    simp [connect_to_server] at he
    rcases he with h | h | h | h | h <;> subst h <;>
      simp [Event.sockId] at hi <;> omega
  | cons f fs ih =>
    intro e he i hi
    simp [connect_to_server] at he
    rcases he with h | h | h | h | h | h | h
    · subst h; simp [Event.sockId] at hi
    · subst h; simp [Event.sockId] at hi; omega
    · subst h; simp [Event.sockId] at hi; omega
    · subst h; simp [Event.sockId] at hi; omega
    · subst h; simp [Event.sockId] at hi
    · subst h; simp [Event.sockId] at hi
    · have := ih (nextId + 1) e h i hi
      simp at this ⊢
      omega

theorem connect_setTimeout_once (host : String) (port : Nat) (nextId : Nat)
    (fails : List String) :
    (connect_to_server host port nextId fails).1.countP
      (fun e => e == Event.sockSetTimeout (nextId + fails.length) 5) = 1 := by
  induction fails generalizing nextId with
  | nil => simp [connect_to_server]
  | cons f fs ih =>
    have harith : nextId + (f :: fs).length = nextId + 1 + fs.length := by
      simp; omega
    rw [harith]
    simp only [connect_to_server, List.countP_append, List.countP_cons]
    rw [ih (nextId + 1)]
    simp [beq_iff_eq]
    omega

/-! Helper lemmas about `utf8Decode` and `listen_for_messages`. -/

theorem utf8DecodeChar_length {b : Nat} {bs rest : List Nat} {c : Char}
    (h : utf8DecodeChar b bs = some (c, rest)) : rest.length ≤ bs.length := by
  unfold utf8DecodeChar at h
  rcases bs with _ | ⟨b1, _ | ⟨b2, _ | ⟨b3, tl⟩⟩⟩
  all_goals (try split at h)
  all_goals (try split at h)
  all_goals (try split at h)
  all_goals (try split at h)
  all_goals (try split at h)
  all_goals (try split at h)
  all_goals simp_all
  all_goals omega

theorem utf8DecodeAux_fuel (fuel₁ : Nat) :
    ∀ (fuel₂ : Nat) (bs : List Nat), bs.length ≤ fuel₁ → bs.length ≤ fuel₂ →
      utf8DecodeAux fuel₁ bs = utf8DecodeAux fuel₂ bs := by
  induction fuel₁ with
  | zero =>
    intro fuel₂ bs h1 _
    cases bs with
    | nil => cases fuel₂ <;> rfl
    | cons b bs' => simp at h1
  | succ f ih =>
    intro fuel₂ bs h1 h2
    cases bs with
    | nil => cases fuel₂ <;> rfl
    | cons b bs' =>
      cases fuel₂ with
      | zero => simp at h2
      | succ f₂ =>
        simp only [utf8DecodeAux]
        rcases hc : utf8DecodeChar b bs' with _ | ⟨c, rest⟩
        · rfl
        · have hlen := utf8DecodeChar_length hc
          simp only [List.length_cons] at h1 h2
          simp [ih f₂ rest (by omega) (by omega)]

theorem utf8Decode_cons_ne_nil {b : Nat} {bs : List Nat} {cs : List Char}
    (h : utf8Decode (b :: bs) = some cs) : cs ≠ [] := by
  intro hnil
  subst hnil
  simp only [utf8Decode, List.length_cons, utf8DecodeAux] at h
  rcases hc : utf8DecodeChar b bs with _ | ⟨c, rest⟩ <;> rw [hc] at h <;>
    simp [Option.map_eq_some'] at h

theorem listen_err_head (id : Nat) (msg : String) (junk : List ReadEvent) :
    listen_for_messages id (.err msg :: junk)
      = ([.sockRecv id 1024, .printConnErrorNotice msg], .connError) := by
  simp [listen_for_messages]

theorem listen_close_head (id : Nat) (junk : List ReadEvent) :
    listen_for_messages id (.chunk [] :: junk)
      = ([.sockRecv id 1024, .printServerClosed], .cleanClose) := by
  rfl

theorem listen_cons_chunk (id : Nat) (bs : List Nat) (cs : List Char)
    (rest : List ReadEvent) (h : utf8Decode bs = some cs) (hne : bs ≠ []) :
    listen_for_messages id (.chunk bs :: rest)
      = (.sockRecv id 1024 :: .printReceived ⟨cs⟩
          :: (listen_for_messages id rest).1,
         (listen_for_messages id rest).2) := by
  have hcs : cs ≠ [] := by
    cases bs with
    | nil => exact absurd rfl hne
    | cons b bs' => exact utf8Decode_cons_ne_nil h
  have hEmpty : cs.isEmpty = false := by
    cases cs with
    | nil => exact absurd rfl hcs
    | cons c cs' => rfl
  simp [listen_for_messages, h, hEmpty]

theorem listen_shape (id : Nat) (rs : List ReadEvent) :
    ∀ e ∈ (listen_for_messages id rs).1,
      e = .sockRecv id 1024 ∨ (∃ s, e = .printReceived s) ∨
      e = .printServerClosed ∨ ∃ s, e = .printConnErrorNotice s := by
  induction rs with
  | nil => simp [listen_for_messages]
  | cons re rest ih =>
    intro e he
    match re with
    | .err msg =>
      simp [listen_for_messages] at he
      rcases he with h | h <;> subst h <;> simp
    | .chunk bs =>
      rcases hdec : utf8Decode bs with _ | cs
      · simp [listen_for_messages, hdec] at he
        subst he; simp
      · cases hcs : cs.isEmpty with
        | true =>
          simp [listen_for_messages, hdec, hcs] at he
          rcases he with h | h <;> subst h <;> simp
        | false =>
          simp [listen_for_messages, hdec, hcs] at he
          rcases he with h | h | h
          · subst h; simp
          · subst h; simp
          · exact ih e h

theorem listen_countP_zero (id : Nat) (rs : List ReadEvent) (p : Event → Bool)
    (h1 : p (.sockRecv id 1024) = false)
    (h2 : ∀ s, p (.printReceived s) = false)
    (h3 : p .printServerClosed = false)
    (h4 : ∀ s, p (.printConnErrorNotice s) = false) :
    (listen_for_messages id rs).1.countP p = 0 := by
  rw [List.countP_eq_zero]
  intro e he
  rcases listen_shape id rs e he with h | ⟨s, h⟩ | h | ⟨s, h⟩ <;>
    subst h <;> simp [h1, h2, h3, h4]

theorem listen_filterMap_nil {α : Type} (id : Nat) (rs : List ReadEvent)
    (f : Event → Option α)
    (h1 : f (.sockRecv id 1024) = none)
    (h2 : ∀ s, f (.printReceived s) = none)
    (h3 : f .printServerClosed = none)
    (h4 : ∀ s, f (.printConnErrorNotice s) = none) :
    (listen_for_messages id rs).1.filterMap f = [] := by
  rw [List.filterMap_eq_nil_iff]
  intro e he
  rcases listen_shape id rs e he with h | ⟨s, h⟩ | h | ⟨s, h⟩ <;>
    subst h <;> simp [h1, h2, h3, h4]

theorem listen_outcome_id (id : Nat) (rs : List ReadEvent) :
    (listen_for_messages id rs).2 = (listen_for_messages 0 rs).2 := by
  induction rs with
  | nil => simp [listen_for_messages]
  | cons re rest ih =>
    match re with
    | .err msg => simp [listen_for_messages]
    | .chunk bs =>
      rcases hdec : utf8Decode bs with _ | cs
      · simp [listen_for_messages, hdec]
      · cases hcs : cs.isEmpty <;> simp [listen_for_messages, hdec, hcs, ih]

theorem listen_good_append (id : Nat) (pre rest : List ReadEvent)
    (h : pre.all ReadEvent.isGood = true) :
    listen_for_messages id (pre ++ rest)
      = ((listen_for_messages id pre).1 ++ (listen_for_messages id rest).1,
         (listen_for_messages id rest).2) := by
  induction pre with
  | nil => simp [listen_for_messages]
  | cons re pre ih =>
    simp only [List.all_cons, Bool.and_eq_true] at h
    obtain ⟨hgood, hall⟩ := h
    match re with
    | .err msg => simp [ReadEvent.isGood] at hgood
    | .chunk bs =>
      simp only [ReadEvent.isGood, Bool.and_eq_true, Bool.not_eq_true',
        Option.isSome_iff_exists] at hgood
      obtain ⟨hne, cs, hdec⟩ := hgood
      have hbs : bs ≠ [] := by
        cases bs with
        | nil => simp at hne
        | cons b bs' => simp
      rw [List.cons_append, listen_cons_chunk id bs cs _ hdec hbs,
        listen_cons_chunk id bs cs pre hdec hbs, ih hall]
      simp

theorem listen_outcome_decodes (id : Nat) (rs : List ReadEvent)
    (h : rs.all ReadEvent.decodes = true) :
    ((listen_for_messages id rs).2).isDecodeErr = false := by
  induction rs with
  | nil => simp [listen_for_messages, RecvOutcome.isDecodeErr]
  | cons re rest ih =>
    simp only [List.all_cons, Bool.and_eq_true] at h
    obtain ⟨hd, hall⟩ := h
    match re with
    | .err msg => simp [listen_for_messages, RecvOutcome.isDecodeErr]
    | .chunk bs =>
      simp only [ReadEvent.decodes, Option.isSome_iff_exists] at hd
      obtain ⟨cs, hdec⟩ := hd
      cases hcs : cs.isEmpty with
      | true => simp [listen_for_messages, hdec, hcs, RecvOutcome.isDecodeErr]
      | false =>
        have hstep : (listen_for_messages id (ReadEvent.chunk bs :: rest)).2
            = (listen_for_messages id rest).2 := by
          simp [listen_for_messages, hdec, hcs]
        rw [hstep]
        exact ih hall

/-! Helper lemmas about `mainLoop`. -/

theorem connect_countP_zero (host : String) (port : Nat) (nextId : Nat)
    (fails : List String) (p : Event → Bool)
    (h1 : ∀ h' p', p (.printAttempting h' p') = false)
    (h2 : ∀ i, p (.sockNew i) = false)
    (h3 : ∀ i, p (.sockSetTimeout i 5) = false)
    (h4 : ∀ i h' p', p (.sockConnect i h' p') = false)
    (h5 : p .printConnected = false)
    (h6 : ∀ s, p (.printConnFailed s) = false)
    (h7 : p (.sleep 5) = false) :
    (connect_to_server host port nextId fails).1.countP p = 0 := by
  rw [List.countP_eq_zero]
  intro e he
  rcases connect_mem_shape host port nextId fails e he with
    h | ⟨i, h⟩ | ⟨i, h⟩ | ⟨i, h⟩ | h | ⟨s', h⟩ | h <;>
    subst h <;> simp [h1, h2, h3, h4, h5, h6, h7]

theorem connect_filterMap_nil {α : Type} (host : String) (port : Nat)
    (nextId : Nat) (fails : List String) (f : Event → Option α)
    (h1 : ∀ h' p', f (.printAttempting h' p') = none)
    (h2 : ∀ i, f (.sockNew i) = none)
    (h3 : ∀ i, f (.sockSetTimeout i 5) = none)
    (h4 : ∀ i h' p', f (.sockConnect i h' p') = none)
    (h5 : f .printConnected = none)
    (h6 : ∀ s, f (.printConnFailed s) = none)
    (h7 : f (.sleep 5) = none) :
    (connect_to_server host port nextId fails).1.filterMap f = [] := by
  rw [List.filterMap_eq_nil_iff]
  intro e he
  rcases connect_mem_shape host port nextId fails e he with
    h | ⟨i, h⟩ | ⟨i, h⟩ | ⟨i, h⟩ | h | ⟨s', h⟩ | h <;>
    subst h <;> simp [h1, h2, h3, h4, h5, h6, h7]

theorem main_cons_normal (host : String) (port : Nat) (nextId : Nat)
    (s : Session) (rest : List Session)
    (hs : ((listen_for_messages 0 s.reads).2).isNormal = true) :
    mainLoop host port nextId (s :: rest)
      = ((connect_to_server host port nextId s.connectFails).1
          ++ (listen_for_messages (nextId + s.connectFails.length) s.reads).1
          ++ [.sockClose (nextId + s.connectFails.length), .printReconnecting]
          ++ (mainLoop host port (nextId + s.connectFails.length + 1) rest).1,
         (mainLoop host port (nextId + s.connectFails.length + 1) rest).2) := by
  have hid := connect_snd host port nextId s.connectFails
  simp only [mainLoop, hid]
  rw [listen_outcome_id]
  rcases houtc : (listen_for_messages 0 s.reads).2 with _ | _ | bs | _
  · simp
  · simp
  · rw [houtc] at hs; simp [RecvOutcome.isNormal] at hs
  · rw [houtc] at hs; simp [RecvOutcome.isNormal] at hs

theorem main_mem_cases (host : String) (port : Nat) (nextId : Nat)
    (s : Session) (rest : List Session) (e : Event)
    (he : e ∈ (mainLoop host port nextId (s :: rest)).1) :
    e ∈ (connect_to_server host port nextId s.connectFails).1
    ∨ e ∈ (listen_for_messages (nextId + s.connectFails.length) s.reads).1
    ∨ e = .sockClose (nextId + s.connectFails.length) ∨ e = .printReconnecting
    ∨ e ∈ (mainLoop host port (nextId + s.connectFails.length + 1) rest).1 := by
  have hid := connect_snd host port nextId s.connectFails
  simp only [mainLoop, hid] at he
  split at he <;> simp [List.mem_append] at he <;> tauto

theorem main_mem_no_send (host : String) (port : Nat) (nextId : Nat)
    (ss : List Session) :
    ∀ e ∈ (mainLoop host port nextId ss).1, e.isSend = false := by
  induction ss generalizing nextId with
  | nil => simp [mainLoop]
  | cons s rest ih =>
    intro e he
    rcases main_mem_cases host port nextId s rest e he with h | h | h | h | h
    · rcases connect_mem_shape _ _ _ _ e h with
        h' | ⟨i, h'⟩ | ⟨i, h'⟩ | ⟨i, h'⟩ | h' | ⟨s', h'⟩ | h' <;> subst h' <;> rfl
    · rcases listen_shape _ _ e h with h' | ⟨s', h'⟩ | h' | ⟨s', h'⟩ <;>
        subst h' <;> rfl
    · subst h; rfl
    · subst h; rfl
    · exact ih (nextId + s.connectFails.length + 1) e h

theorem main_mem_sockId_ge (host : String) (port : Nat) (nextId : Nat)
    (ss : List Session) :
    ∀ e ∈ (mainLoop host port nextId ss).1,
      ∀ i, e.sockId = some i → nextId ≤ i := by
  induction ss generalizing nextId with
  | nil => simp [mainLoop]
  | cons s rest ih =>
    intro e he i hi
    rcases main_mem_cases host port nextId s rest e he with h | h | h | h | h
    · exact (connect_sockId_bounds host port nextId s.connectFails e h i hi).1
    · rcases listen_shape _ _ e h with h' | ⟨s', h'⟩ | h' | ⟨s', h'⟩ <;>
        subst h' <;> simp [Event.sockId] at hi
      omega
    · subst h; simp [Event.sockId] at hi; omega
    · subst h; simp [Event.sockId] at hi
    · have := ih (nextId + s.connectFails.length + 1) e h i hi
      omega

theorem main_mem_connTarget (host : String) (port : Nat) (nextId : Nat)
    (ss : List Session) :
    ∀ e ∈ (mainLoop host port nextId ss).1,
      ∀ t, e.connTarget = some t → t = (host, port) := by
  induction ss generalizing nextId with
  | nil => simp [mainLoop]
  | cons s rest ih =>
    intro e he t ht
    rcases main_mem_cases host port nextId s rest e he with h | h | h | h | h
    · have hmem : t ∈ (connect_to_server host port nextId
          s.connectFails).1.filterMap Event.connTarget :=
        List.mem_filterMap.mpr ⟨e, h, ht⟩
      rw [connect_filterMap_connTarget] at hmem
      exact List.eq_of_mem_replicate hmem
    · rcases listen_shape _ _ e h with h' | ⟨s', h'⟩ | h' | ⟨s', h'⟩ <;>
        subst h' <;> simp [Event.connTarget] at ht
    · subst h; simp [Event.connTarget] at ht
    · subst h; simp [Event.connTarget] at ht
    · exact ih (nextId + s.connectFails.length + 1) e h t ht

theorem main_filterMap_closeId (host : String) (port : Nat) (nextId : Nat)
    (ss : List Session)
    (h : ss.all (fun s => ((listen_for_messages 0 s.reads).2).isNormal)
      = true) :
    (mainLoop host port nextId ss).1.filterMap Event.closeId
      = sessionIds nextId ss := by
  induction ss generalizing nextId with
  | nil => simp [mainLoop, sessionIds]
  | cons s rest ih =>
    simp only [List.all_cons, Bool.and_eq_true] at h
    obtain ⟨hs, hrest⟩ := h
    rw [main_cons_normal host port nextId s rest hs]
    simp only [List.filterMap_append]
    rw [connect_filterMap_nil host port nextId s.connectFails Event.closeId
        (by intro h' p'; rfl) (by intro i; rfl) (by intro i; rfl)
        (by intro i h' p'; rfl) rfl (by intro s'; rfl) rfl,
      listen_filterMap_nil (nextId + s.connectFails.length) s.reads
        Event.closeId rfl (by intro s'; rfl) rfl (by intro s'; rfl),
      ih (nextId + s.connectFails.length + 1) hrest]
    simp [sessionIds, Event.closeId]

/-- C4 (amended): every socket-level failure inside the Connector or the
Receiver is absorbed and converted into a retry or reconnect — for every
environment in which each received chunk decodes as UTF-8, no matter how
many connect failures and transport read errors occur, the process never
crashes.  The amendment drops the claim's "any failure while decoding a
received chunk": a `UnicodeDecodeError` is not a `socket.error`, is not
caught, and does terminate the process (`decode_error_kills_process`). -/
theorem socket_failures_never_fatal (host : String) (port : Nat)
    (nextId : Nat) (ss : List Session)
    (h : ss.all (fun s => s.reads.all ReadEvent.decodes) = true) :
    ((mainLoop host port nextId ss).2).isCrashed = false := by
  induction ss generalizing nextId with
  | nil => simp [mainLoop, ProcState.isCrashed]
  | cons s rest ih =>
    simp only [List.all_cons, Bool.and_eq_true] at h
    obtain ⟨hs, hrest⟩ := h
    simp only [mainLoop]
    split
    · rfl
    · rename_i bs heq
      have hdec := listen_outcome_decodes
        (connect_to_server host port nextId s.connectFails).2 s.reads hs
      rw [heq] at hdec
      simp [RecvOutcome.isDecodeErr] at hdec
    · exact ih ((connect_to_server host port nextId s.connectFails).2 + 1)
        hrest
    · exact ih ((connect_to_server host port nextId s.connectFails).2 + 1)
        hrest

/-! The claim theorems. -/

/-- C1: the Connector never fails outward.  For every finite sequence of
failed connection attempts followed by one successful attempt, it returns
the socket of the successful attempt (whose `connect` call appears in the
trace, the success notice ending it), emits exactly one failure notice
per failed attempt, sleeps the fixed 5 time-units exactly once per
failure between consecutive attempts, and narrates
attempt/failure/sleep per failed attempt, then attempt/success. -/
theorem connector_retry_contract (host : String) (port : Nat)
    (nextId : Nat) (fails : List String) :
    (connect_to_server host port nextId fails).2 = nextId + fails.length
    ∧ (connect_to_server host port nextId fails).1.countP Event.isFailNotice
        = fails.length
    ∧ (connect_to_server host port nextId fails).1.filterMap Event.sleepSecs
        = List.replicate fails.length 5
    ∧ Event.sockConnect (nextId + fails.length) host port
        ∈ (connect_to_server host port nextId fails).1
    ∧ (connect_to_server host port nextId fails).1.getLast?
        = some Event.printConnected
    ∧ (connect_to_server host port nextId fails).1.filterMap Event.retryTag
        = (List.replicate fails.length [0, 1, 2]).flatten ++ [0, 3] :=
  ⟨connect_snd host port nextId fails,
   connect_countP_fail host port nextId fails,
   connect_filterMap_sleep host port nextId fails,
   connect_mem_success host port nextId fails,
   connect_getLast host port nextId fails,
   connect_filterMap_retryTag host port nextId fails⟩

/-- C3: the Receiver ends with the clean-close outcome (not the error
outcome) exactly when a read returns zero bytes, and ends with the error
outcome immediately on a transport read error; in both cases it consumes
nothing after the terminating read and its final event is the status
line naming the cause. -/
theorem receiver_termination (id : Nat) (pre junk : List ReadEvent)
    (msg : String) (hpre : pre.all ReadEvent.isGood = true) :
    (listen_for_messages id (pre ++ .chunk [] :: junk)
        = listen_for_messages id (pre ++ [.chunk []])
      ∧ (listen_for_messages id (pre ++ [.chunk []])).2 = .cleanClose
      ∧ (listen_for_messages id (pre ++ [.chunk []])).1.getLast?
          = some .printServerClosed)
    ∧ (listen_for_messages id (pre ++ .err msg :: junk)
        = listen_for_messages id (pre ++ [.err msg])
      ∧ (listen_for_messages id (pre ++ [.err msg])).2 = .connError
      ∧ (listen_for_messages id (pre ++ [.err msg])).1.getLast?
          = some (.printConnErrorNotice msg)) := by
  rw [listen_good_append id pre (.chunk [] :: junk) hpre,
    listen_good_append id pre [.chunk []] hpre,
    listen_good_append id pre (.err msg :: junk) hpre,
    listen_good_append id pre [.err msg] hpre,
    listen_close_head, listen_close_head, listen_err_head, listen_err_head]
  refine ⟨⟨rfl, rfl, ?_⟩, rfl, rfl, ?_⟩
  · rw [List.getLast?_append_of_ne_nil _ (by simp)]; rfl
  · rw [List.getLast?_append_of_ne_nil _ (by simp)]; rfl

/-- Witness for C3: two good chunks, then the terminating read, with
junk behind it that is never consumed. -/
theorem receiver_termination_witness :
    ([ReadEvent.chunk [104], ReadEvent.chunk [33]].all ReadEvent.isGood
      = true)
    ∧ ((listen_for_messages 7 ([ReadEvent.chunk [104], ReadEvent.chunk [33]]
          ++ .chunk [] :: [ReadEvent.err "junk"])
        = listen_for_messages 7 ([ReadEvent.chunk [104],
            ReadEvent.chunk [33]] ++ [.chunk []])
      ∧ (listen_for_messages 7 ([ReadEvent.chunk [104], ReadEvent.chunk [33]]
          ++ [.chunk []])).2 = .cleanClose
      ∧ (listen_for_messages 7 ([ReadEvent.chunk [104], ReadEvent.chunk [33]]
          ++ [.chunk []])).1.getLast? = some .printServerClosed)
    ∧ (listen_for_messages 7 ([ReadEvent.chunk [104], ReadEvent.chunk [33]]
          ++ .err "reset" :: [ReadEvent.err "junk"])
        = listen_for_messages 7 ([ReadEvent.chunk [104],
            ReadEvent.chunk [33]] ++ [.err "reset"])
      ∧ (listen_for_messages 7 ([ReadEvent.chunk [104], ReadEvent.chunk [33]]
          ++ [.err "reset"])).2 = .connError
      ∧ (listen_for_messages 7 ([ReadEvent.chunk [104], ReadEvent.chunk [33]]
          ++ [.err "reset"])).1.getLast?
          = some (.printConnErrorNotice "reset"))) :=
  ⟨by decide, receiver_termination 7 [ReadEvent.chunk [104],
    ReadEvent.chunk [33]] [ReadEvent.err "junk"] "reset" (by decide)⟩

/-- C7: the client never transmits — in every execution of the
connect–receive–close loop, over every environment, the trace contains
no send operation; the client is a passive consumer of the server's byte
stream. -/
theorem client_never_transmits (host : String) (port : Nat) (nextId : Nat)
    (ss : List Session) :
    (mainLoop host port nextId ss).1.countP Event.isSend = 0 := by
  rw [List.countP_eq_zero]
  intro e he
  simp [main_mem_no_send host port nextId ss e he]

/-- C6: with `SERVER_HOST` and `SERVER_PORT` unset the client targets
localhost:8080; and whatever the configuration, the two values fixed at
startup are the ones every connection attempt of the whole run targets —
they never change for the process lifetime. -/
theorem config_defaults_and_stability (envHost : Option String)
    (envPort : Option Nat) (nextId : Nat) (ss : List Session) :
    SERVER_HOST none = "localhost" ∧ SERVER_PORT none = 8080
    ∧ ((mainLoop (SERVER_HOST envHost) (SERVER_PORT envPort) nextId
          ss).1.filterMap Event.connTarget).all
        (fun t => t == (SERVER_HOST envHost, SERVER_PORT envPort)) = true := by
  refine ⟨rfl, rfl, ?_⟩
  rw [List.all_eq_true]
  intro t ht
  obtain ⟨e, he, het⟩ := List.mem_filterMap.mp ht
  rw [beq_iff_eq]
  exact main_mem_connTarget (SERVER_HOST envHost) (SERVER_PORT envPort)
    nextId ss e he t het

/-- C2 counterexample: the receive phase has an exit path on which the
Connection is never closed.  When the received bytes are not valid UTF-8
(the lone continuation byte 0x80), `.decode()` raises, the exception is
not a `socket.error`, it escapes `listen_for_messages` and `main`, and
the run ends with no close operation in the trace at all — refuting
"closed exactly once ... on every exit path from the receive phase". -/
theorem session_close_skipped_on_decode_error :
    (mainLoop "localhost" 8080 0 [⟨[], [.chunk [0x80]]⟩]).2
        = .crashed [0x80]
    ∧ (mainLoop "localhost" 8080 0 [⟨[], [.chunk [0x80]]⟩]).1.countP
        Event.isClose = 0 := by decide

/-- C2 (amended): for every session whose receive phase RETURNS — clean
close or socket error, i.e. every exit path except the uncaught
decode-error exit of `session_close_skipped_on_decode_error` — the
phases are strictly ordered and the close is exact: the run is the
connect events, then the receive events, then the single close of the
session's socket with the reconnect notice, then the rest of the run;
the connect phase performs no receive and no close, the receive phase no
connect and no close, the session's socket is closed exactly once in the
whole run, and after its close every socket operation touches a strictly
newer socket (so the close precedes the next connect). -/
theorem session_phase_order (host : String) (port : Nat) (nextId : Nat)
    (s : Session) (rest : List Session)
    (hs : ((listen_for_messages 0 s.reads).2).isNormal = true) :
    (mainLoop host port nextId (s :: rest)).1
      = (connect_to_server host port nextId s.connectFails).1
        ++ (listen_for_messages (nextId + s.connectFails.length) s.reads).1
        ++ [.sockClose (nextId + s.connectFails.length), .printReconnecting]
        ++ (mainLoop host port (nextId + s.connectFails.length + 1) rest).1
    ∧ (mainLoop host port nextId (s :: rest)).1.countP
        (fun e => e == Event.sockClose (nextId + s.connectFails.length)) = 1
    ∧ (∀ e ∈ (connect_to_server host port nextId s.connectFails).1,
        e.isRecv = false ∧ e.isClose = false)
    ∧ (∀ e ∈ (listen_for_messages (nextId + s.connectFails.length)
          s.reads).1, e.isConnAttempt = false ∧ e.isNew = false
          ∧ e.isClose = false)
    ∧ (∀ e ∈ (mainLoop host port (nextId + s.connectFails.length + 1)
          rest).1, ∀ i, e.sockId = some i
          → nextId + s.connectFails.length < i) := by
  have hdec := main_cons_normal host port nextId s rest hs
  have htrace : (mainLoop host port nextId (s :: rest)).1
      = (connect_to_server host port nextId s.connectFails).1
        ++ (listen_for_messages (nextId + s.connectFails.length) s.reads).1
        ++ [.sockClose (nextId + s.connectFails.length), .printReconnecting]
        ++ (mainLoop host port (nextId + s.connectFails.length + 1) rest).1 := by
    rw [hdec]
  refine ⟨htrace, ?_, ?_, ?_, ?_⟩
  · rw [htrace]
    simp only [List.countP_append, List.countP_cons]
    rw [connect_countP_zero host port nextId s.connectFails _
        (by intro h' p'; simp) (by intro i; simp) (by intro i; simp)
        (by intro i h' p'; simp) (by simp) (by intro s'; simp) (by simp),
      listen_countP_zero (nextId + s.connectFails.length) s.reads _
        (by simp) (by intro s'; simp) (by simp) (by intro s'; simp)]
    have hrest : (mainLoop host port (nextId + s.connectFails.length + 1)
        rest).1.countP
        (fun e => e == Event.sockClose (nextId + s.connectFails.length))
        = 0 := by
      rw [List.countP_eq_zero]
      intro e he hbeq
      rw [beq_iff_eq] at hbeq
      subst hbeq
      have := main_mem_sockId_ge host port
        (nextId + s.connectFails.length + 1) rest _ he
        (nextId + s.connectFails.length) rfl
      omega
    rw [hrest]
    simp
  · intro e he
    rcases connect_mem_shape host port nextId s.connectFails e he with
      h | ⟨i, h⟩ | ⟨i, h⟩ | ⟨i, h⟩ | h | ⟨s', h⟩ | h <;>
      subst h <;> exact ⟨rfl, rfl⟩
  · intro e he
    rcases listen_shape (nextId + s.connectFails.length) s.reads e he with
      h | ⟨s', h⟩ | h | ⟨s', h⟩ <;> subst h <;> exact ⟨rfl, rfl, rfl⟩
  · intro e he i hi
    have := main_mem_sockId_ge host port
      (nextId + s.connectFails.length + 1) rest e he i hi
    omega

/-- Witness for C2 (amended): one failed then one successful connect, a
message, a clean close, no further sessions. -/
theorem session_phase_order_witness :
    ((listen_for_messages 0 [ReadEvent.chunk [104],
        ReadEvent.chunk []]).2).isNormal = true
    ∧ ((mainLoop "localhost" 8080 0
          [⟨["refused"], [ReadEvent.chunk [104], ReadEvent.chunk []]⟩]).1
        = (connect_to_server "localhost" 8080 0 ["refused"]).1
          ++ (listen_for_messages 1 [ReadEvent.chunk [104],
              ReadEvent.chunk []]).1
          ++ [.sockClose 1, .printReconnecting]
          ++ (mainLoop "localhost" 8080 2 []).1
      ∧ (mainLoop "localhost" 8080 0
          [⟨["refused"], [ReadEvent.chunk [104], ReadEvent.chunk []]⟩]).1.countP
          (fun e => e == Event.sockClose 1) = 1
      ∧ (∀ e ∈ (connect_to_server "localhost" 8080 0 ["refused"]).1,
          e.isRecv = false ∧ e.isClose = false)
      ∧ (∀ e ∈ (listen_for_messages 1 [ReadEvent.chunk [104],
            ReadEvent.chunk []]).1, e.isConnAttempt = false
            ∧ e.isNew = false ∧ e.isClose = false)
      ∧ (∀ e ∈ (mainLoop "localhost" 8080 2 []).1,
          ∀ i, e.sockId = some i → 1 < i)) :=
  ⟨by decide, session_phase_order "localhost" 8080 0
    ⟨["refused"], [ReadEvent.chunk [104], ReadEvent.chunk []]⟩ []
    (by decide)⟩

/-- C4 counterexample: an error can terminate the process.  A chunk that
fails to decode (0xFF is never valid UTF-8) raises `UnicodeDecodeError`
inside the Receiver; it is not converted to a retry — the process
crashes instead of the Session Loop continuing. -/
theorem decode_error_kills_process :
    (mainLoop "localhost" 8080 0 [⟨[], [.chunk [0xFF]]⟩]).2.isCrashed
        = true
    ∧ (mainLoop "localhost" 8080 0 [⟨[], [.chunk [0xFF]]⟩]).2
        = .crashed [0xFF] := by decide

/-- Witness for C4 (amended): connect failures, a message and a reset —
all socket-level — leave the process alive. -/
theorem socket_failures_never_fatal_witness :
    ([⟨["refused", "unreachable"], [ReadEvent.chunk [104],
        ReadEvent.err "reset"]⟩] : List Session).all
      (fun s => s.reads.all ReadEvent.decodes) = true
    ∧ ((mainLoop "localhost" 8080 0 [⟨["refused", "unreachable"],
        [ReadEvent.chunk [104], ReadEvent.err "reset"]⟩]).2).isCrashed
      = false :=
  ⟨by decide, socket_failures_never_fatal "localhost" 8080 0
    [⟨["refused", "unreachable"], [ReadEvent.chunk [104],
      ReadEvent.err "reset"]⟩] (by decide)⟩

/-- C5 counterexample: the display does not strip only trailing
whitespace — `str.strip()` strips the leading end too.  On the chunk
" hi" (bytes 32, 104, 105) the client prints
"Received from server: hi"; stripping exactly the trailing
whitespace/newline would print "Received from server:  hi". -/
theorem display_not_trailing_only :
    (listen_for_messages 0 [.chunk [32, 104, 105]]).1
      = [.sockRecv 0 1024, .printReceived " hi"]
    ∧ Event.render (.printReceived " hi") = some "Received from server: hi"
    ∧ "Received from server: " ++ stripTrailing " hi"
        = "Received from server:  hi"
    ∧ Event.render (.printReceived " hi")
        ≠ some ("Received from server: " ++ stripTrailing " hi") := by
  decide

/-- C5 (amended): every non-empty decodable chunk is decoded as text and
surfaced as one message whose displayed payload is the text with BOTH
leading and trailing whitespace stripped (`str.strip()`); and the hello
scenario holds — on "hello\n" then close, the console shows
"Received from server: hello", the clean-closure notice, then the
reconnect notice, in that order. -/
theorem receiver_display_and_hello (id : Nat) (bs : List Nat)
    (cs : List Char) (rest : List ReadEvent)
    (h : utf8Decode bs = some cs) (hne : bs ≠ []) :
    listen_for_messages id (.chunk bs :: rest)
      = (.sockRecv id 1024 :: .printReceived ⟨cs⟩
          :: (listen_for_messages id rest).1,
         (listen_for_messages id rest).2)
    ∧ Event.render (.printReceived ⟨cs⟩)
        = some ("Received from server: " ++ pyStrip ⟨cs⟩)
    ∧ (mainLoop "localhost" 8080 0
          [⟨[], [.chunk [104, 101, 108, 108, 111, 10],
            .chunk []]⟩]).1.filterMap Event.render
      = ["Attempting to connect to localhost:8080...",
         "Connected to the server.",
         "Received from server: hello",
         "Server closed the connection.",
         "Connection lost. Reconnecting..."] :=
  ⟨listen_cons_chunk id bs cs rest h hne, rfl, by decide⟩

/-- Witness for C5 (amended): the chunk "\th\n" is displayed with both
the leading tab and the trailing newline stripped. -/
theorem receiver_display_and_hello_witness :
    utf8Decode [9, 104, 10] = some ['\t', 'h', '\n']
    ∧ ([9, 104, 10] : List Nat) ≠ []
    ∧ (listen_for_messages 3 (.chunk [9, 104, 10] :: [ReadEvent.chunk []])
        = (.sockRecv 3 1024
            :: .printReceived ⟨['\t', 'h', '\n']⟩
            :: (listen_for_messages 3 [ReadEvent.chunk []]).1,
           (listen_for_messages 3 [ReadEvent.chunk []]).2)
      ∧ Event.render (.printReceived ⟨['\t', 'h', '\n']⟩)
          = some ("Received from server: " ++ pyStrip ⟨['\t', 'h', '\n']⟩)
      ∧ (mainLoop "localhost" 8080 0
            [⟨[], [.chunk [104, 101, 108, 108, 111, 10],
              .chunk []]⟩]).1.filterMap Event.render
        = ["Attempting to connect to localhost:8080...",
           "Connected to the server.",
           "Received from server: hello",
           "Server closed the connection.",
           "Connection lost. Reconnecting..."]) :=
  ⟨by decide, by decide, receiver_display_and_hello 3 [9, 104, 10]
    ['\t', 'h', '\n'] [ReadEvent.chunk []] (by decide) (by decide)⟩

/-- C8: the 5-unit timeout installed before connecting stays in force
for every read.  The Connector's trace sets a timeout exactly once on
the socket it returns, every timeout it ever installs is 5, and it
performs no read, so the value 5 governs all subsequent reads; the
Receiver never alters a timeout.  A read error — Python's
`socket.timeout`, raised when no data arrives within the window, is a
`socket.error` and lands in the same handler as any reset — makes the
Receiver print the connection-error notice as its final line and return
with the error outcome, upon which the Session Loop closes the socket
and proceeds to the next connect cycle. -/
theorem read_timeout_handled_as_error (host : String) (port : Nat)
    (nextId : Nat) (fails : List String) (pre : List ReadEvent)
    (msg : String) (rest : List Session)
    (hpre : pre.all ReadEvent.isGood = true) :
    (connect_to_server host port nextId fails).1.filterMap Event.timeoutOf
      = List.replicate (fails.length + 1) 5
    ∧ (connect_to_server host port nextId fails).1.countP
        (fun e => e == Event.sockSetTimeout (nextId + fails.length) 5) = 1
    ∧ (connect_to_server host port nextId fails).1.countP Event.isRecv = 0
    ∧ (listen_for_messages (nextId + fails.length)
        (pre ++ [.err msg])).1.countP Event.isSetTimeout = 0
    ∧ (listen_for_messages (nextId + fails.length) (pre ++ [.err msg])).2
        = .connError
    ∧ (listen_for_messages (nextId + fails.length)
        (pre ++ [.err msg])).1.getLast?
        = some (.printConnErrorNotice msg)
    ∧ (mainLoop host port nextId (⟨fails, pre ++ [.err msg]⟩ :: rest)).1
      = (connect_to_server host port nextId fails).1
        ++ (listen_for_messages (nextId + fails.length)
            (pre ++ [.err msg])).1
        ++ [.sockClose (nextId + fails.length), .printReconnecting]
        ++ (mainLoop host port (nextId + fails.length + 1) rest).1 := by
  have hout : (listen_for_messages 0 (pre ++ [.err msg])).2
      = RecvOutcome.connError := by
    rw [listen_good_append 0 pre [.err msg] hpre, listen_err_head]
  refine ⟨connect_filterMap_timeout host port nextId fails,
    connect_setTimeout_once host port nextId fails,
    connect_countP_zero host port nextId fails _
      (by intro h' p'; rfl) (by intro i; rfl) (by intro i; rfl)
      (by intro i h' p'; rfl) rfl (by intro s'; rfl) rfl,
    listen_countP_zero (nextId + fails.length) (pre ++ [.err msg]) _
      rfl (by intro s'; rfl) rfl (by intro s'; rfl),
    ?_, ?_, ?_⟩
  · rw [listen_good_append (nextId + fails.length) pre [.err msg] hpre,
      listen_err_head]
  · rw [listen_good_append (nextId + fails.length) pre [.err msg] hpre,
      listen_err_head, List.getLast?_append_of_ne_nil _ (by simp)]
    rfl
  · have h := main_cons_normal host port nextId
      ⟨fails, pre ++ [.err msg]⟩ rest
      (by rw [hout]; rfl)
    rw [h]

/-- Witness for C8: one good chunk then a timed-out read. -/
theorem read_timeout_handled_as_error_witness :
    ([ReadEvent.chunk [104]].all ReadEvent.isGood = true)
    ∧ ((connect_to_server "localhost" 8080 0 ["refused"]).1.filterMap
        Event.timeoutOf = List.replicate 2 5
      ∧ (connect_to_server "localhost" 8080 0 ["refused"]).1.countP
          (fun e => e == Event.sockSetTimeout 1 5) = 1
      ∧ (connect_to_server "localhost" 8080 0 ["refused"]).1.countP
          Event.isRecv = 0
      ∧ (listen_for_messages 1 ([ReadEvent.chunk [104]]
          ++ [.err "timed out"])).1.countP Event.isSetTimeout = 0
      ∧ (listen_for_messages 1 ([ReadEvent.chunk [104]]
          ++ [.err "timed out"])).2 = .connError
      ∧ (listen_for_messages 1 ([ReadEvent.chunk [104]]
          ++ [.err "timed out"])).1.getLast?
          = some (.printConnErrorNotice "timed out")
      ∧ (mainLoop "localhost" 8080 0 [⟨["refused"], [ReadEvent.chunk [104]]
          ++ [.err "timed out"]⟩]).1
        = (connect_to_server "localhost" 8080 0 ["refused"]).1
          ++ (listen_for_messages 1 ([ReadEvent.chunk [104]]
              ++ [.err "timed out"])).1
          ++ [.sockClose 1, .printReconnecting]
          ++ (mainLoop "localhost" 8080 2 []).1) :=
  ⟨by decide, read_timeout_handled_as_error "localhost" 8080 0 ["refused"]
    [ReadEvent.chunk [104]] "timed out" [] (by decide)⟩

/-- C9: only an exactly zero-length read is a clean close.  A non-empty
decodable chunk — a whitespace-only one included — is printed and the
loop continues with the next read (after one such chunk alone the loop
is still running, not closed); the chunk "\n" displays with an empty
payload and the loop goes on to the real close. -/
theorem nonempty_chunk_never_clean_close (id : Nat) (bs : List Nat)
    (cs : List Char) (rest : List ReadEvent)
    (h : utf8Decode bs = some cs) (hne : bs ≠ []) :
    listen_for_messages id (.chunk bs :: rest)
      = (.sockRecv id 1024 :: .printReceived ⟨cs⟩
          :: (listen_for_messages id rest).1,
         (listen_for_messages id rest).2)
    ∧ (listen_for_messages id [.chunk bs]).2 = .running
    ∧ (listen_for_messages 0 [.chunk [10], .chunk []]).1.filterMap
        Event.render
      = ["Received from server: ", "Server closed the connection."] := by
  refine ⟨listen_cons_chunk id bs cs rest h hne, ?_, by decide⟩
  rw [listen_cons_chunk id bs cs [] h hne]
  rfl

/-- Witness for C9: the whitespace-only chunk "\n" is not treated as a
closed connection. -/
theorem nonempty_chunk_never_clean_close_witness :
    utf8Decode [10] = some ['\n']
    ∧ ([10] : List Nat) ≠ []
    ∧ (listen_for_messages 5 (.chunk [10] :: [ReadEvent.err "reset"])
        = (.sockRecv 5 1024 :: .printReceived ⟨['\n']⟩
            :: (listen_for_messages 5 [ReadEvent.err "reset"]).1,
           (listen_for_messages 5 [ReadEvent.err "reset"]).2)
      ∧ (listen_for_messages 5 [.chunk [10]]).2 = .running
      ∧ (listen_for_messages 0 [.chunk [10], .chunk []]).1.filterMap
          Event.render
        = ["Received from server: ", "Server closed the connection."]) :=
  ⟨by decide, by decide, nonempty_chunk_never_clean_close 5 [10] ['\n']
    [ReadEvent.err "reset"] (by decide) (by decide)⟩

/-- C10: the Connector abandons the socket of every failed attempt
without closing it and creates a fresh socket per attempt — its trace
creates exactly the sockets nextId, nextId+1, ... (one per attempt) and
contains no close; it returns the last-created socket; the Receiver
closes nothing; and over a run whose sessions all terminate normally the
closes in the trace are exactly the successful sockets, one each, in
session order — performed by the Session Loop after the receive phase. -/
theorem failed_sockets_abandoned (host : String) (port : Nat)
    (nextId sid : Nat) (fails : List String) (rs : List ReadEvent)
    (ss : List Session)
    (h : ss.all (fun s => ((listen_for_messages 0 s.reads).2).isNormal)
      = true) :
    (connect_to_server host port nextId fails).1.filterMap Event.newId
      = List.range' nextId (fails.length + 1)
    ∧ (connect_to_server host port nextId fails).1.countP Event.isClose = 0
    ∧ (connect_to_server host port nextId fails).2 = nextId + fails.length
    ∧ (listen_for_messages sid rs).1.countP Event.isClose = 0
    ∧ (mainLoop host port nextId ss).1.filterMap Event.closeId
      = sessionIds nextId ss :=
  ⟨connect_filterMap_newId host port nextId fails,
   connect_countP_zero host port nextId fails _
     (by intro h' p'; rfl) (by intro i; rfl) (by intro i; rfl)
     (by intro i h' p'; rfl) rfl (by intro s'; rfl) rfl,
   connect_snd host port nextId fails,
   listen_countP_zero sid rs _ rfl (by intro s'; rfl) rfl
     (by intro s'; rfl),
   main_filterMap_closeId host port nextId ss h⟩

/-- Witness for C10: two failed attempts then success, and a two-session
run closing exactly sockets 2 and 3. -/
theorem failed_sockets_abandoned_witness :
    ([⟨["refused", "refused"], [ReadEvent.chunk []]⟩,
      ⟨[], [ReadEvent.err "reset"]⟩] : List Session).all
      (fun s => ((listen_for_messages 0 s.reads).2).isNormal) = true
    ∧ ((connect_to_server "localhost" 8080 0 ["refused", "refused"]).1.filterMap
        Event.newId = List.range' 0 3
      ∧ (connect_to_server "localhost" 8080 0
          ["refused", "refused"]).1.countP Event.isClose = 0
      ∧ (connect_to_server "localhost" 8080 0 ["refused", "refused"]).2 = 2
      ∧ (listen_for_messages 9 [ReadEvent.chunk [104]]).1.countP
          Event.isClose = 0
      ∧ (mainLoop "localhost" 8080 0
          [⟨["refused", "refused"], [ReadEvent.chunk []]⟩,
           ⟨[], [ReadEvent.err "reset"]⟩]).1.filterMap Event.closeId
        = sessionIds 0 [⟨["refused", "refused"], [ReadEvent.chunk []]⟩,
           ⟨[], [ReadEvent.err "reset"]⟩]) :=
  ⟨by decide, failed_sockets_abandoned "localhost" 8080 0 9
    ["refused", "refused"] [ReadEvent.chunk [104]]
    [⟨["refused", "refused"], [ReadEvent.chunk []]⟩,
     ⟨[], [ReadEvent.err "reset"]⟩] (by decide)⟩
